import Mathlib

/-!
Verification development for the Movie Journal repository
(github.com/pavelanni/movie-journal).

The definitions below are a shallow embedding of the Go source:

* `internal/models` — the data records `Movie`, `DiaryEntry`, `Lookup`;
* `internal/handlers/handlers.go` — the HTTP handlers (`Home`, `GetDiaryEntry`,
  `GetDiaryEntryShort`, `GetRecentEntries`, `NewDiaryEntryForm`,
  `CreateDiaryEntry`, `EditDiaryEntry`, `DeleteDiaryEntry`) together with the
  helpers `renderDiaryEntry`, `getSampleEntries` and `getEntryByID`;
* `internal/database` — `Migrate` and `runMigration` with the `migrationV1`
  schema script;
* `internal/server/server.go` — the route table registered by `setupRoutes`
  and its net/http `ServeMux` dispatch behaviour.

Go `int64`/`int` values are modelled as `Int` with explicit 64-bit range
checks where the source performs them (`strconv.ParseInt`, `strconv.Atoi`).
Wall-clock times produced by `time.Now().AddDate(0, 0, -d)` are modelled by
the day offset `-d` relative to the (single) instant at which
`getSampleEntries` is evaluated; only the relative order of these instants is
ever observable in the source.
-/

namespace MovieJournal

/-! ## Data model (`internal/models`) -/

/-- Movie record from `internal/models`: cached TMDB metadata. -/
structure Movie where
  title : String
  posterURL : String
  director : String
  genre : String
  overview : String
  id : Int
  tmdbID : Int
  year : Int
deriving Repr, DecidableEq

/-- Lookup category closed enumeration from `internal/models`. -/
inductive LookupCategory where
  | actor
  | location
  | trivia
  | other
deriving Repr, DecidableEq

/-- Lookup record from `internal/models`: a research moment tied to an entry. -/
structure Lookup where
  question : String
  answer : String
  category : LookupCategory
  url : String
  id : Int
  diaryEntryID : Int
deriving Repr, DecidableEq

/-- DiaryEntry record from `internal/models`: one movie viewing session.
`watchedDateOffsetDays` models the `WatchedDate` field: the source fills it
with `time.Now().AddDate(0, 0, -d)`, modelled as the signed day offset `-d`
from the common reference instant. -/
structure DiaryEntry where
  watchedDateOffsetDays : Int
  movie : Option Movie
  watchedLocation : String
  watchedWith : String
  notes : String
  lookups : List Lookup
  id : Int
  movieID : Int
  rating : Int
deriving Repr, DecidableEq

/-! ## Go integer parsing (`strconv.ParseInt`, `strconv.Atoi`)

`strconv.ParseInt(s, 10, 64)` accepts an optional leading sign followed by at
least one decimal digit, and fails on overflow of the signed 64-bit range.
`strconv.Atoi` is `ParseInt(s, 10, 0)` with the platform int size, 64 bits on
the targets this repository builds for, so it is the same function. -/

/-- Fold decimal digits into an accumulator; any non-digit character fails. -/
def parseDigitsAux (acc : Nat) : List Char → Option Nat
  | [] => some acc
  | c :: cs =>
      if c.isDigit then parseDigitsAux (acc * 10 + (c.toNat - 48)) cs
      else none

/-- Model of Go `strconv.ParseInt(s, 10, 64)`: optional sign, one or more
decimal digits, signed 64-bit range check. `none` models a non-nil error. -/
def goParseInt64 (s : String) : Option Int :=
  match s.toList with
  | [] => none
  | c :: cs =>
      let signed : Bool × List Char :=
        if c = '-' then (true, cs)
        else if c = '+' then (false, cs)
        else (false, c :: cs)
      match signed.2 with
      | [] => none
      | d :: ds =>
          match parseDigitsAux 0 (d :: ds) with
          | none => none
          | some m =>
              if signed.1 then
                if (m : Int) ≤ 2 ^ 63 then some (-(m : Int)) else none
              else
                if (m : Int) ≤ 2 ^ 63 - 1 then some (m : Int) else none

/-- Model of Go `strconv.Atoi` (64-bit platform): same as `ParseInt(s,10,64)`. -/
def goAtoi (s : String) : Option Int :=
  goParseInt64 s

/-! ## Sample entry store (`getSampleEntries`, `getEntryByID`) -/

/-- Sample diary entries returned by `getSampleEntries` in
`internal/handlers/handlers.go`; the only entry source the handlers use. -/
def getSampleEntries : List DiaryEntry :=
  [ { watchedDateOffsetDays := -2
      movie := some
        { title := "Fight Club"
          posterURL := "https://image.tmdb.org/t/p/w185/pB8BM7pdSp6B6Ih7QZ4DrQ3PmJK.jpg"
          director := "David Fincher"
          genre := "Drama"
          overview := "A depressed man suffering from insomnia meets a strange soap salesman named Tyler Durden and soon finds himself living in his squalid house after his perfect apartment is destroyed."
          id := 1
          tmdbID := 550
          year := 1999 }
      watchedLocation := "Home"
      watchedWith := "Sarah"
      notes := "First rule of Fight Club..."
      lookups :=
        [ { question := "Where was the Paper Street house?"
            answer := "The house was located in Wilmington, Delaware"
            category := LookupCategory.location
            url := ""
            id := 1
            diaryEntryID := 0 } ]
      id := 1
      movieID := 1
      rating := 5 }
  , { watchedDateOffsetDays := -5
      movie := some
        { title := "Inception"
          posterURL := "https://image.tmdb.org/t/p/w185/oYuLEt3zVCKq57qu2F8dT7NIa6f.jpg"
          director := "Christopher Nolan"
          genre := "Sci-Fi"
          overview := "Cobb, a skilled thief who commits corporate espionage by infiltrating the subconscious of his targets is offered a chance to regain his old life as payment for a task considered to be impossible: inception."
          id := 2
          tmdbID := 27205
          year := 2010 }
      watchedLocation := "Cinema"
      watchedWith := ""
      notes := "The ending still gets me every time. Is it real or not?"
      lookups :=
        [ { question := "Who composed the score?"
            answer := "Hans Zimmer"
            category := LookupCategory.trivia
            url := ""
            id := 2
            diaryEntryID := 0 }
        , { question := "Where was the rotating hallway filmed?"
            answer := "Cardington Studios in Bedfordshire, UK"
            category := LookupCategory.location
            url := ""
            id := 3
            diaryEntryID := 0 } ]
      id := 2
      movieID := 2
      rating := 3 }
  , { watchedDateOffsetDays := -10
      movie := some
        { title := "Pulp Fiction"
          posterURL := "https://image.tmdb.org/t/p/w185/d5iIlFn5s0ImszYzBPb8JPIfbXD.jpg"
          director := "Quentin Tarantino"
          genre := "Crime"
          overview := "A burger-loving hit man, his philosophical partner, a drug-addled gangster's moll and a washed-up boxer converge in this sprawling, comedic crime caper."
          id := 3
          tmdbID := 680
          year := 1994 }
      watchedLocation := "In-flight"
      watchedWith := "Mike"
      notes := "A masterpiece of non-linear storytelling."
      lookups := []
      id := 3
      movieID := 3
      rating := 4 }
  ]

/-- Linear search by id, mirroring `getEntryByID` in handlers.go: returns the
first entry whose `ID` equals `id`, or nothing. -/
def getEntryByID (id : Int) : List DiaryEntry → Option DiaryEntry
  | [] => none
  | e :: es => if e.id = id then some e else getEntryByID id es

/-! ## Responses and HTML fragments

The templ components are opaque to the handler logic: a handler only ever
passes a record (or list) to a component and writes the rendered bytes.  We
model a rendered response by the component applied, which determines the body
up to the deterministic template text. -/

/-- HTML fragment produced by a templ component call in the handlers. -/
inductive Fragment where
  | movieDetails (e : DiaryEntry)
  | movieCard (e : DiaryEntry)
  | recentEntries (es : List DiaryEntry) (ratingParam : String)
  | indexPage (es : List DiaryEntry)
  | aboutPage
  | diaryNewForm
deriving Repr, DecidableEq

/-- HTTP response written by a handler or by the ServeMux itself. -/
inductive Response where
  | html (status : Nat) (frag : Fragment)
  | errorResp (status : Nat) (msg : String)
  | redirect (status : Nat) (location : String)
  | emptyOK
  | healthOK
  | staticAsset
deriving Repr, DecidableEq

/-- HTTP status code of a response (`emptyOK`, `healthOK`, `staticAsset` are
all written with `http.StatusOK`). -/
def statusOf : Response → Nat
  | .html s _ => s
  | .errorResp s _ => s
  | .redirect s _ => s
  | .emptyOK => 200
  | .healthOK => 200
  | .staticAsset => 200

/-! ## Handlers (`internal/handlers/handlers.go`)

A parsed form body is a list of key/value pairs; `none` models a request body
on which `r.ParseForm()` returns an error.  `r.FormValue(key)` returns the
first value for `key` or the empty string. -/

/-- Form data as seen by the handlers after `r.ParseForm()`. -/
def Form := List (String × String)

/-- Model of `r.FormValue key`: first value for the key, or the empty string. -/
def formValue (form : Form) (key : String) : String :=
  match List.find? (fun p => p.1 = key) form with
  | some p => p.2
  | none => ""

/-- Model of the helper `renderDiaryEntry`: parse the `id` path value, reject
with 400 before touching the entry store on a parse error, look the entry up
in `getSampleEntries`, render with the given component on success.  The
second component counts how many times the entry store (`getSampleEntries`)
is consulted while serving the request. -/
def renderDiaryEntryCounted (render : DiaryEntry → Fragment) (idStr : String) :
    Response × Nat :=
  match goParseInt64 idStr with
  | none => (.errorResp 400 "Invalid ID", 0)
  | some id =>
      match getEntryByID id getSampleEntries with
      | none => (.errorResp 404 "Entry not found", 1)
      | some e => (.html 200 (render e), 1)

/-- Handler `GetDiaryEntry` (GET /diary/i): detail fragment. -/
def getDiaryEntry (idStr : String) : Response :=
  (renderDiaryEntryCounted Fragment.movieDetails idStr).1

/-- Handler `GetDiaryEntryShort` (GET /diary-short/i): card fragment. -/
def getDiaryEntryShort (idStr : String) : Response :=
  (renderDiaryEntryCounted Fragment.movieCard idStr).1

/-- The filtering loop of `GetRecentEntries`: start from an empty slice and
append, in order, every entry whose rating is at least `minRating`. -/
def filterLoop (minRating : Int) (entries : List DiaryEntry) : List DiaryEntry :=
  entries.foldl (fun acc e => if minRating ≤ e.rating then acc ++ [e] else acc) []

/-- Handler `GetRecentEntries` (GET /recent-entries): if the `min_rating`
query parameter is non-empty and parses with `strconv.Atoi`, filter the
sample entries by it; otherwise serve them unfiltered.  The raw parameter
string is passed to the template either way. -/
def getRecentEntries (ratingParam : String) : Response :=
  let entries := getSampleEntries
  let entries :=
    if ratingParam ≠ "" then
      match goAtoi ratingParam with
      | some minRating => filterLoop minRating entries
      | none => entries
    else entries
  .html 200 (.recentEntries entries ratingParam)

/-- Handler `NewDiaryEntryForm` (GET /diary/new). -/
def newDiaryEntryForm : Response :=
  .html 200 .diaryNewForm

/-- Handler `CreateDiaryEntry` (POST /diary/new): 400 if `ParseForm` fails;
otherwise the form values are read and logged and the handler redirects to
`/` with 303 See Other.  No field of the form, the rating included, is
validated and nothing is stored. -/
def createDiaryEntry (form : Option Form) : Response :=
  match form with
  | none => .errorResp 400 "Failed to parse form"
  | some _ => .redirect 303 "/"

/-- Handler `EditDiaryEntry` (PUT /diary/i in the handler's doc): 400 if the
id does not parse or `ParseForm` fails; the form values are read and logged
only; the handler then looks the id up in `getSampleEntries` and renders the
stored entry's detail fragment unchanged, or 404 if the id is absent. -/
def editDiaryEntry (idStr : String) (form : Option Form) : Response :=
  match goParseInt64 idStr with
  | none => .errorResp 400 "Invalid ID"
  | some id =>
      match form with
      | none => .errorResp 400 "Failed to parse form"
      | some _ =>
          match getEntryByID id getSampleEntries with
          | none => .errorResp 404 "Entry not found after edit"
          | some e => .html 200 (.movieDetails e)

/-- Handler `DeleteDiaryEntry` (DELETE /diary/i): 400 if the id does not
parse; otherwise 200 with an empty body.  No store access and no deletion
takes place. -/
def deleteDiaryEntry (idStr : String) : Response :=
  match goParseInt64 idStr with
  | none => .errorResp 400 "Invalid ID"
  | some _ => .emptyOK

/-- Handler `Home` (GET /, catch-all): full page over the sample entries. -/
def home : Response :=
  .html 200 (.indexPage getSampleEntries)

/-- Handler `About` (GET /about). -/
def about : Response :=
  .html 200 .aboutPage

/-! ## Database migrations (`internal/database`)

`migrationV1` is a script of `CREATE TABLE IF NOT EXISTS` and
`CREATE INDEX IF NOT EXISTS` statements: executing it sets every object it
mentions to existing and cannot fail.  The schema state records which of the
objects exist; `schema_migrations` is modelled separately together with its
rows (the recorded version numbers, `version` being the primary key). -/

/-- Existence flags for every object `migrationV1` creates. -/
structure Schema where
  moviesTable : Bool
  diaryEntriesTable : Bool
  lookupsTable : Bool
  idxMoviesTmdbID : Bool
  idxMoviesTitle : Bool
  idxDiaryEntriesMovieID : Bool
  idxDiaryEntriesWatchedAt : Bool
  idxLookupsDiaryEntryID : Bool
  idxLookupsCategory : Bool
deriving Repr, DecidableEq

/-- Database state: the `schema_migrations` tracking table (existence flag and
recorded version rows, in insertion order) plus the application schema. -/
structure DBState where
  migrationsTable : Bool
  appliedVersions : List Int
  schema : Schema
deriving Repr, DecidableEq

/-- Schema of a database file that was just created: none of the objects of
`migrationV1` exist yet. -/
def emptySchema : Schema :=
  { moviesTable := false
    diaryEntriesTable := false
    lookupsTable := false
    idxMoviesTmdbID := false
    idxMoviesTitle := false
    idxDiaryEntriesMovieID := false
    idxDiaryEntriesWatchedAt := false
    idxLookupsDiaryEntryID := false
    idxLookupsCategory := false }

/-- State of a database file that was just created by `Open`. -/
def freshDB : DBState :=
  { migrationsTable := false
    appliedVersions := []
    schema := emptySchema }

/-- Current schema version constant `schemaVersion` from migrations.go. -/
def schemaVersion : Int := 1

/-- Effect of executing the `migrationV1` script: every `IF NOT EXISTS`
object exists afterwards, whatever existed before. -/
def applyMigrationV1 (_ : Schema) : Schema :=
  { moviesTable := true
    diaryEntriesTable := true
    lookupsTable := true
    idxMoviesTmdbID := true
    idxMoviesTitle := true
    idxDiaryEntriesMovieID := true
    idxDiaryEntriesWatchedAt := true
    idxLookupsDiaryEntryID := true
    idxLookupsCategory := true }

/-- The `CHECK (rating >= 1 AND rating <= 5)` constraint `migrationV1`
declares on `diary_entries.rating`: whether the schema would accept `r`. -/
def migrationV1RatingCheck (r : Int) : Bool :=
  decide (1 ≤ r) && decide (r ≤ 5)

/-- Model of `runMigration`: begin a transaction, pick the script for the
version (only version 1 exists), execute it, insert the version row into
`schema_migrations`, commit.  Any failure rolls the transaction back, so the
returned state is the input state.  The insert fails when the tracking table
is missing or when the version row already exists (primary-key conflict);
executing `migrationV1` itself cannot fail. -/
def runMigration (version : Int) (db : DBState) : Option String × DBState :=
  if version = 1 then
    let tx : DBState := { db with schema := applyMigrationV1 db.schema }
    if db.migrationsTable = false ∨ version ∈ db.appliedVersions then
      (some "recording migration", db)
    else
      (none, { tx with appliedVersions := tx.appliedVersions ++ [version] })
  else
    (some "unknown migration version", db)

/-- `COALESCE(MAX(version), 0)` over the rows of `schema_migrations`. -/
def coalesceMaxVersion : List Int → Int
  | [] => 0
  | v :: vs => vs.foldl max v

/-- The `for v := currentVersion + 1; v <= schemaVersion; v++` loop of
`Migrate`, with the iteration count precomputed as fuel; stops at the first
failing step and propagates its error. -/
def migrateLoop : Nat → Int → DBState → Option String × DBState
  | 0, _, db => (none, db)
  | fuel + 1, v, db =>
      match runMigration v db with
      | (some e, db') => (some e, db')
      | (none, db') => migrateLoop fuel (v + 1) db'

/-- Model of `Migrate`: create `schema_migrations` if it does not exist, read
`COALESCE(MAX(version), 0)`, then run every migration from the next version
up to `schemaVersion`. -/
def Migrate (db : DBState) : Option String × DBState :=
  let db1 : DBState := { db with migrationsTable := true }
  let currentVersion := coalesceMaxVersion db1.appliedVersions
  migrateLoop (schemaVersion - currentVersion).toNat (currentVersion + 1) db1

/-! ## Router (`internal/server/server.go`, `setupRoutes`)

`setupRoutes` registers exactly these method/pattern pairs on a Go 1.22
`net/http.ServeMux`:

  GET /static/ (prefix), GET /health, GET /, GET /about, GET /diary/i,
  DELETE /diary/i, GET /diary-short/i, GET /recent-entries, GET /diary/new,
  POST /diary/new

(with `i` standing for the wildcard path segment).  `GET /` is a
trailing-slash pattern and matches every path, so a request whose method and
path match no registered pair is answered by the mux with 405 Method Not
Allowed (some pattern always matches the path shape).  The literal pattern
`/diary/new` takes precedence over the wildcard `/diary/` + segment.  No
pattern for the PUT method is registered. -/

/-- One inbound HTTP request as the handlers observe it: method, path split
into segments, the `min_rating` query value (empty string when absent, as Go's
`URL.Query().Get` reports it), and the form body (`none` when `ParseForm`
would fail). -/
structure Request where
  method : String
  pathSegs : List String
  minRatingParam : String
  form : Option Form

/-- Server state threaded through request handling: the database handle held
by `Handlers`.  None of the registered handlers executes a statement on it. -/
def ServerState := DBState

/-- ServeMux dispatch plus handler execution, one request at a time,
mirroring `setupRoutes` and the handler bodies.  Every handler leaves the
database untouched, exactly as in the source, where no handler calls into
`h.db`. -/
def handleRequest (req : Request) (st : ServerState) : Response × ServerState :=
  match req.method, req.pathSegs with
  | "GET", "static" :: _ => (.staticAsset, st)
  | "GET", ["health"] => (.healthOK, st)
  | "GET", ["about"] => (about, st)
  | "GET", ["diary", "new"] => (newDiaryEntryForm, st)
  | "POST", ["diary", "new"] => (createDiaryEntry req.form, st)
  | "GET", ["diary", idStr] => (getDiaryEntry idStr, st)
  | "DELETE", ["diary", idStr] => (deleteDiaryEntry idStr, st)
  | "GET", ["diary-short", idStr] => (getDiaryEntryShort idStr, st)
  | "GET", ["recent-entries"] => (getRecentEntries req.minRatingParam, st)
  | "GET", _ => (home, st)
  | _, _ => (.errorResp 405 "Method Not Allowed", st)

/-- Run a sequence of requests, threading the server state. -/
def runRequests (reqs : List Request) (st : ServerState) : ServerState :=
  reqs.foldl (fun s r => (handleRequest r s).2) st

/-! ## Derived notions used by the statements -/

/-- A list of entries is ordered by watched date descending: along the list
the watched instants never increase.  With all sample dates produced from the
same reference instant, this is the order of the day offsets. -/
def watchedDateDescending (es : List DiaryEntry) : Prop :=
  es.Sorted (fun a b => b.watchedDateOffsetDays ≤ a.watchedDateOffsetDays)

/-- A database state whose schema is already at the current version: the
tracking table exists and the largest recorded version is `schemaVersion`. -/
def atCurrentVersion (db : DBState) : Prop :=
  db.migrationsTable = true ∧ coalesceMaxVersion db.appliedVersions = schemaVersion

/-! ## Helper lemmas -/

theorem filterLoop_foldl (k : Int) (l : List DiaryEntry) :
    ∀ acc : List DiaryEntry,
      l.foldl (fun acc e => if k ≤ e.rating then acc ++ [e] else acc) acc =
        acc ++ l.filter (fun e => k ≤ e.rating) := by
  induction l with
  | nil => intro acc; simp
  | cons e es ih =>
      intro acc
      by_cases h : k ≤ e.rating
      · simp [List.foldl_cons, h, ih, List.filter_cons]
      · simp [List.foldl_cons, h, ih, List.filter_cons]

theorem filterLoop_eq_filter (k : Int) (l : List DiaryEntry) :
    filterLoop k l = l.filter (fun e => k ≤ e.rating) := by
  simpa using filterLoop_foldl k l []

theorem getSampleEntries_sorted : watchedDateDescending getSampleEntries := by
  unfold watchedDateDescending getSampleEntries
  decide

theorem watchedDateDescending_filter (p : DiaryEntry → Bool) (l : List DiaryEntry)
    (h : watchedDateDescending l) : watchedDateDescending (l.filter p) :=
  List.Pairwise.sublist (List.filter_sublist l) h

theorem le_foldl_max (l : List Int) : ∀ a : Int, a ≤ l.foldl max a := by
  induction l with
  | nil => intro a; exact le_refl a
  | cons b l ih =>
      intro a
      exact le_trans (le_max_left a b) (ih (max a b))

theorem mem_le_foldl_max (l : List Int) : ∀ a x : Int, x ∈ l → x ≤ l.foldl max a := by
  induction l with
  | nil => intro a x hx; cases hx
  | cons b l ih =>
      intro a x hx
      rcases List.mem_cons.mp hx with h | h
      · subst h
        exact le_trans (le_max_right a x) (le_foldl_max l (max a x))
      · exact ih (max a b) x h

theorem le_coalesceMaxVersion {x : Int} {l : List Int} (hx : x ∈ l) :
    x ≤ coalesceMaxVersion l := by
  cases l with
  | nil => cases hx
  | cons v vs =>
      rcases List.mem_cons.mp hx with h | h
      · subst h; exact le_foldl_max vs x
      · exact mem_le_foldl_max vs v x h

theorem coalesceMaxVersion_append_one (l : List Int) :
    coalesceMaxVersion (l ++ [1]) = max (coalesceMaxVersion l) 1 := by
  cases l with
  | nil => simp [coalesceMaxVersion]
  | cons v vs => simp [coalesceMaxVersion, List.foldl_append]

/-- Characterization of `Migrate` by the current version read from the
tracking table: a no-op past the current version, one recorded application of
`migrationV1` from version 0, and the unknown-version error from a negative
current version, the state always gaining the tracking table itself. -/
theorem Migrate_spec (db : DBState) :
    Migrate db =
      if 1 ≤ coalesceMaxVersion db.appliedVersions then
        (none, { db with migrationsTable := true })
      else if coalesceMaxVersion db.appliedVersions = 0 then
        (none, { migrationsTable := true,
                 appliedVersions := db.appliedVersions ++ [1],
                 schema := applyMigrationV1 db.schema })
      else
        (some "unknown migration version", { db with migrationsTable := true }) := by
  by_cases h1 : 1 ≤ coalesceMaxVersion db.appliedVersions
  · have hfuel : ((1 : Int) - coalesceMaxVersion db.appliedVersions).toNat = 0 := by
      omega
    simp only [Migrate, schemaVersion]
    rw [hfuel]
    simp [migrateLoop, if_pos h1]
  · by_cases h0 : coalesceMaxVersion db.appliedVersions = 0
    · have hfuel : ((1 : Int) - coalesceMaxVersion db.appliedVersions).toNat = 1 := by
        omega
      have hmem : ¬ (1 : Int) ∈ db.appliedVersions := by
        intro hmem
        have := le_coalesceMaxVersion hmem
        omega
      simp only [Migrate, schemaVersion]
      rw [hfuel, h0]
      simp only [migrateLoop, runMigration, zero_add, if_pos rfl]
      simp [hmem, applyMigrationV1, if_neg h1, h0]
    · have hneg : coalesceMaxVersion db.appliedVersions < 0 := by omega
      obtain ⟨k, hk⟩ :
          ∃ k, ((1 : Int) - coalesceMaxVersion db.appliedVersions).toNat = k + 1 := by
        refine ⟨((1 : Int) - coalesceMaxVersion db.appliedVersions).toNat - 1, ?_⟩
        omega
      have hne1 : ¬ (coalesceMaxVersion db.appliedVersions + 1 = 1) := by omega
      simp only [Migrate, schemaVersion]
      rw [hk]
      simp only [migrateLoop, runMigration, if_neg hne1]
      simp [if_neg h1, if_neg h0]

/-- Running `Migrate` a second time from the state the first run produced
changes nothing and reports the same outcome. -/
theorem Migrate_idem (db : DBState) : Migrate (Migrate db).2 = Migrate db := by
  by_cases h1 : 1 ≤ coalesceMaxVersion db.appliedVersions
  · rw [Migrate_spec db]
    simp only [if_pos h1]
    rw [Migrate_spec]
    simp [h1]
  · by_cases h0 : coalesceMaxVersion db.appliedVersions = 0
    · rw [Migrate_spec db]
      simp only [if_neg h1, if_pos h0]
      rw [Migrate_spec]
      have hc1 : coalesceMaxVersion (db.appliedVersions ++ [1]) = 1 := by
        rw [coalesceMaxVersion_append_one, h0]
        simp
      simp [hc1]
    · rw [Migrate_spec db]
      simp only [if_neg h1, if_neg h0]
      rw [Migrate_spec]
      simp [h1, h0]

/-! ## Claim theorems -/

/-- C4: for every minimum-rating filter value `k` (any query string `s` that
`strconv.Atoi` parses to `k`), `GET /recent-entries?min_rating=s` returns
exactly the sample entries whose rating is at least `k`, in watched-date
descending order; in particular with the three seeded entries rated 5, 3, 4
and `k = 4` it returns exactly the entries with ids 1 and 3, rated 5 and 4. -/
theorem claim_C4 (s : String) (k : Int) (hne : s ≠ "") (hk : goAtoi s = some k) :
    getRecentEntries s =
        .html 200 (.recentEntries (getSampleEntries.filter fun e => k ≤ e.rating) s)
      ∧ watchedDateDescending (getSampleEntries.filter fun e => k ≤ e.rating)
      ∧ (filterLoop 4 getSampleEntries).map DiaryEntry.id = [1, 3]
      ∧ (filterLoop 4 getSampleEntries).map DiaryEntry.rating = [5, 4] := by
  refine ⟨?_, ?_, ?_, ?_⟩
  · simp [getRecentEntries, hne, hk, filterLoop_eq_filter]
  · exact watchedDateDescending_filter _ _ getSampleEntries_sorted
  · rw [filterLoop_eq_filter]; decide
  · rw [filterLoop_eq_filter]; decide

/-- Witness for C4 at the concrete scenario `min_rating=4`. -/
theorem claim_C4_witness :
    getRecentEntries "4" =
        .html 200 (.recentEntries (getSampleEntries.filter fun e => 4 ≤ e.rating) "4")
      ∧ (filterLoop 4 getSampleEntries).map DiaryEntry.id = [1, 3] := by
  have h := claim_C4 "4" 4 (by decide) (by decide)
  exact ⟨h.1, h.2.2.1⟩

/-- C5: a path identifier on which `strconv.ParseInt` fails is answered with
400 Invalid ID and the entry store is never consulted: the helper
`renderDiaryEntry` returns before its `getSampleEntries` call, so the count
of store accesses is 0, for either fragment shape. -/
theorem claim_C5 (render : DiaryEntry → Fragment) (idStr : String)
    (h : goParseInt64 idStr = none) :
    renderDiaryEntryCounted render idStr = (.errorResp 400 "Invalid ID", 0)
      ∧ getDiaryEntry idStr = .errorResp 400 "Invalid ID"
      ∧ getDiaryEntryShort idStr = .errorResp 400 "Invalid ID" := by
  refine ⟨?_, ?_, ?_⟩ <;>
    simp [renderDiaryEntryCounted, getDiaryEntry, getDiaryEntryShort, h]

/-- Witness for C5 at the id string of the spec scenario, `/diary/abc`. -/
theorem claim_C5_witness :
    goParseInt64 "abc" = none
      ∧ renderDiaryEntryCounted Fragment.movieDetails "abc" =
          (.errorResp 400 "Invalid ID", 0) :=
  ⟨by decide, (claim_C5 Fragment.movieDetails "abc" (by decide)).1⟩

/-- C9: a non-empty `min_rating` query value on which `strconv.Atoi` fails is
silently ignored: `GET /recent-entries` answers 200 with the full unfiltered
sample entry list. -/
theorem claim_C9 (s : String) (hne : s ≠ "") (h : goAtoi s = none) :
    getRecentEntries s = .html 200 (.recentEntries getSampleEntries s) := by
  simp [getRecentEntries, hne, h]

/-- Witness for C9 at the non-numeric filter value abc. -/
theorem claim_C9_witness :
    goAtoi "abc" = none
      ∧ getRecentEntries "abc" = .html 200 (.recentEntries getSampleEntries "abc") :=
  ⟨by decide, claim_C9 "abc" (by decide) (by decide)⟩

/-- C10: every path identifier that `strconv.ParseInt` accepts (zero,
negative, and explicitly plus-signed decimals included) is treated as
well-formed by both fetch handlers: the response is the rendered entry when
the id is present, 404 when it is absent, and never 400. -/
theorem claim_C10 (s : String) (n : Int) (h : goParseInt64 s = some n) :
    (getDiaryEntry s =
        match getEntryByID n getSampleEntries with
        | some e => .html 200 (.movieDetails e)
        | none => .errorResp 404 "Entry not found")
      ∧ (getDiaryEntryShort s =
          match getEntryByID n getSampleEntries with
          | some e => .html 200 (.movieCard e)
          | none => .errorResp 404 "Entry not found")
      ∧ statusOf (getDiaryEntry s) ≠ 400
      ∧ statusOf (getDiaryEntryShort s) ≠ 400
      ∧ (getEntryByID n getSampleEntries = none →
          statusOf (getDiaryEntry s) = 404 ∧ statusOf (getDiaryEntryShort s) = 404) := by
  cases hE : getEntryByID n getSampleEntries with
  | none =>
      refine ⟨?_, ?_, ?_, ?_, ?_⟩ <;>
        simp [getDiaryEntry, getDiaryEntryShort, renderDiaryEntryCounted, h, hE, statusOf]
  | some e =>
      refine ⟨?_, ?_, ?_, ?_, ?_⟩ <;>
        simp [getDiaryEntry, getDiaryEntryShort, renderDiaryEntryCounted, h, hE, statusOf]

/-- Witness for C10 at the identifiers -1, 0 and +5: all parse, all are
absent from the store, and the fetch handlers answer 404, not 400. -/
theorem claim_C10_witness :
    goParseInt64 "-1" = some (-1) ∧ statusOf (getDiaryEntry "-1") = 404
      ∧ goParseInt64 "0" = some 0 ∧ statusOf (getDiaryEntry "0") = 404
      ∧ goParseInt64 "+5" = some 5 ∧ statusOf (getDiaryEntryShort "+5") = 404 := by
  refine ⟨by decide, ?_, by decide, ?_, by decide, ?_⟩
  · exact ((claim_C10 "-1" (-1) (by decide)).2.2.2.2 (by decide)).1
  · exact ((claim_C10 "0" 0 (by decide)).2.2.2.2 (by decide)).1
  · exact ((claim_C10 "+5" 5 (by decide)).2.2.2.2 (by decide)).2

/-- C1 counterexample: submitting the create form with the out-of-range
rating 6 does not fail with ValidationError: `CreateDiaryEntry` answers with
the 303 redirect to `/`, although the rating 6 violates the `CHECK` of the
`migrationV1` schema. -/
theorem claim_C1_counterexample :
    createDiaryEntry (some
        [("watched_date", "2024-05-01"), ("movie_title", "Fight Club"),
         ("watched_location", "Home"), ("rating", "6"), ("notes", ""),
         ("watched_with", "")]) = .redirect 303 "/"
      ∧ statusOf (createDiaryEntry (some
          [("watched_date", "2024-05-01"), ("movie_title", "Fight Club"),
           ("watched_location", "Home"), ("rating", "6"), ("notes", ""),
           ("watched_with", "")])) ≠ 400
      ∧ migrationV1RatingCheck 6 = false := by
  refine ⟨rfl, by decide, by decide⟩

/-- C1 amended: `CreateDiaryEntry` validates nothing: for every parseable
form, whatever the rating field holds, it succeeds with the 303 redirect to
`/`; it answers 400 only when the form body fails to parse.  The rating range
[1,5] appears in the repository only as the `CHECK` constraint declared by
`migrationV1`, which the handler never consults. -/
theorem claim_C1_amended (form : Form) :
    createDiaryEntry (some form) = .redirect 303 "/"
      ∧ createDiaryEntry none = .errorResp 400 "Failed to parse form"
      ∧ (∀ r : Int, migrationV1RatingCheck r = true ↔ 1 ≤ r ∧ r ≤ 5) := by
  refine ⟨rfl, rfl, ?_⟩
  intro r
  simp [migrationV1RatingCheck]

/-- C2 counterexample: after `DELETE /diary/1` completes (200 with empty
body), fetching entry 1 still succeeds with 200, not 404: the delete handler
removes nothing from the entry source. -/
theorem claim_C2_counterexample :
    deleteDiaryEntry "1" = .emptyOK
      ∧ statusOf (getDiaryEntry "1") = 200
      ∧ statusOf (getDiaryEntry "1") ≠ 404
      ∧ statusOf (getDiaryEntryShort "1") = 200 := by
  refine ⟨rfl, by decide, by decide, by decide⟩

/-- C2 amended: `DeleteDiaryEntry` answers 200 with an empty body for every
id that parses but deletes nothing, so a subsequent fetch of entry i returns
404 exactly when no sample entry carries id i — deleting one of the stored
ids 1, 2, 3 leaves it fetchable. -/
theorem claim_C2_amended (s : String) (n : Int) (h : goParseInt64 s = some n) :
    deleteDiaryEntry s = .emptyOK
      ∧ (statusOf (getDiaryEntry s) = 404 ↔ getEntryByID n getSampleEntries = none)
      ∧ (statusOf (getDiaryEntryShort s) = 404 ↔ getEntryByID n getSampleEntries = none) := by
  refine ⟨by simp [deleteDiaryEntry, h], ?_, ?_⟩ <;>
    cases hE : getEntryByID n getSampleEntries <;>
      simp [getDiaryEntry, getDiaryEntryShort, renderDiaryEntryCounted, h, hE, statusOf]

/-- Witness for the amended C2 at id 99: the delete succeeds and the
subsequent fetch of the (never present) entry 99 returns 404. -/
theorem claim_C2_amended_witness :
    deleteDiaryEntry "99" = .emptyOK ∧ statusOf (getDiaryEntry "99") = 404 :=
  ⟨(claim_C2_amended "99" 99 (by decide)).1,
   ((claim_C2_amended "99" 99 (by decide)).2.1).mpr (by decide)⟩

/-- C3 counterexample: `setupRoutes` registers no PUT pattern, so the mux
answers `PUT /diary/1` with 405 Method Not Allowed, not with a detail
fragment; and the `EditDiaryEntry` handler itself, invoked with a form that
changes the notes, responds exactly as an untouched fetch does — the stored
entry still carries its original notes, not the submitted ones. -/
theorem claim_C3_counterexample :
    (handleRequest
        { method := "PUT", pathSegs := ["diary", "1"], minRatingParam := "",
          form := some [("notes", "changed")] } freshDB).1 =
      .errorResp 405 "Method Not Allowed"
      ∧ editDiaryEntry "1" (some [("notes", "changed")]) = getDiaryEntry "1"
      ∧ (getEntryByID 1 getSampleEntries).map DiaryEntry.notes =
          some "First rule of Fight Club..."
      ∧ (getEntryByID 1 getSampleEntries).map DiaryEntry.notes ≠ some "changed" := by
  refine ⟨rfl, rfl, by decide, by decide⟩

/-- C3 amended: the route `PUT /diary/(id)` is absent from `setupRoutes`, so the
server answers every such request 405; the unreached handler
`EditDiaryEntry`, called directly, applies no edit: with a parseable id and a
parseable form it responds with the detail fragment of the stored sample
entry unchanged, 404 when the id is absent, and 400 when the id or the form
is malformed. -/
theorem claim_C3_amended (st : ServerState) (s bad : String) (n : Int) (frm : Form)
    (h : goParseInt64 s = some n) (hbad : goParseInt64 bad = none) :
    (handleRequest
        { method := "PUT", pathSegs := ["diary", s], minRatingParam := "",
          form := some frm } st).1 = .errorResp 405 "Method Not Allowed"
      ∧ editDiaryEntry s (some frm) =
          (match getEntryByID n getSampleEntries with
           | some e => .html 200 (.movieDetails e)
           | none => .errorResp 404 "Entry not found after edit")
      ∧ editDiaryEntry s none = .errorResp 400 "Failed to parse form"
      ∧ editDiaryEntry bad (some frm) = .errorResp 400 "Invalid ID" := by
  refine ⟨rfl, ?_, ?_, ?_⟩
  · cases hE : getEntryByID n getSampleEntries <;> simp [editDiaryEntry, h, hE]
  · simp [editDiaryEntry, h]
  · simp [editDiaryEntry, hbad]

/-- Witness for the amended C3 at id 1 with a notes edit. -/
theorem claim_C3_amended_witness :
    (handleRequest
        { method := "PUT", pathSegs := ["diary", "1"], minRatingParam := "",
          form := some [("notes", "changed")] } freshDB).1 =
      .errorResp 405 "Method Not Allowed"
      ∧ editDiaryEntry "abc" (some [("notes", "changed")]) =
          .errorResp 400 "Invalid ID" := by
  have h := claim_C3_amended freshDB "1" "abc" 1 [("notes", "changed")]
    (by decide) (by decide)
  exact ⟨h.1, h.2.2.2⟩

/-- C6: `Migrate` is idempotent: on a schema already at the current version
it succeeds without applying a step and leaves the state unchanged; running
it twice from any state yields exactly the outcome of running it once; and a
run that starts below the current version records the version it applies in
the tracking table. -/
theorem claim_C6 (db : DBState) :
    (atCurrentVersion db → Migrate db = (none, db))
      ∧ Migrate (Migrate db).2 = Migrate db
      ∧ (coalesceMaxVersion db.appliedVersions = 0 →
          (Migrate db).2.appliedVersions = db.appliedVersions ++ [schemaVersion]) := by
  refine ⟨?_, Migrate_idem db, ?_⟩
  · rintro ⟨ht, hc⟩
    rw [Migrate_spec]
    have h1 : 1 ≤ coalesceMaxVersion db.appliedVersions := by
      rw [hc]; simp [schemaVersion]
    rw [if_pos h1]
    cases db with
    | mk t a s => simp_all
  · intro h0
    have h1 : ¬ 1 ≤ coalesceMaxVersion db.appliedVersions := by omega
    rw [Migrate_spec, if_neg h1, if_pos h0]
    simp [schemaVersion]

/-- Witness for C6: a database at the current version is untouched by
`Migrate`, and migrating a fresh database records version 1. -/
theorem claim_C6_witness :
    Migrate { migrationsTable := true, appliedVersions := [1],
              schema := applyMigrationV1 emptySchema } =
        (none, { migrationsTable := true, appliedVersions := [1],
                 schema := applyMigrationV1 emptySchema })
      ∧ (Migrate freshDB).2.appliedVersions = [] ++ [schemaVersion] := by
  constructor
  · exact (claim_C6 _).1 ⟨rfl, by decide⟩
  · exact (claim_C6 freshDB).2.2 (by decide)

/-- C7: every migration step is atomic: when `runMigration` fails, the state
it leaves is exactly the state from before the step, and when it succeeds,
the schema change of `migrationV1` and the insertion of the version row have
both happened (the step that can succeed being version 1); a failing step
makes `Migrate` fail with the error while leaving the database as it stood
after creating the tracking table, before the step. -/
theorem claim_C7 (v : Int) (db : DBState) :
    ((runMigration v db).1 ≠ none → (runMigration v db).2 = db)
      ∧ ((runMigration v db).1 = none →
          (runMigration v db).2 =
            { migrationsTable := db.migrationsTable,
              appliedVersions := db.appliedVersions ++ [v],
              schema := applyMigrationV1 db.schema }
            ∧ v = 1)
      ∧ ((Migrate db).1 ≠ none → (Migrate db).2 = { db with migrationsTable := true }) := by
  refine ⟨?_, ?_, ?_⟩
  · intro h
    by_cases hv : v = 1
    · subst hv
      by_cases hc : db.migrationsTable = false ∨ (1 : Int) ∈ db.appliedVersions
      · simp [runMigration, hc]
      · simp [runMigration, hc] at h
    · simp [runMigration, hv]
  · intro h
    by_cases hv : v = 1
    · subst hv
      by_cases hc : db.migrationsTable = false ∨ (1 : Int) ∈ db.appliedVersions
      · simp [runMigration, hc] at h
      · simp [runMigration, hc]
    · simp [runMigration, hv] at h
  · intro h
    rw [Migrate_spec] at h ⊢
    by_cases h1 : 1 ≤ coalesceMaxVersion db.appliedVersions
    · simp [h1] at h
    · by_cases h0 : coalesceMaxVersion db.appliedVersions = 0
      · simp [h1, h0] at h
      · simp [h1, h0]

/-- Witness for C7: the step for the unknown version 2 on a fresh database
fails and leaves the database exactly as it was. -/
theorem claim_C7_witness :
    (runMigration 2 freshDB).1 = some "unknown migration version"
      ∧ (runMigration 2 freshDB).2 = freshDB := by
  constructor
  · decide
  · exact (claim_C7 2 freshDB).1 (by decide)

/-- C8: every registered handler leaves the server state unchanged — the
create, update and delete handlers write nothing — so any sequence of
requests leaves the state fixed, the response of any later request is the
response it would have produced before the sequence, and the entry source
keeps serving the same three sample ids. -/
theorem claim_C8 :
    (∀ (req : Request) (st : ServerState), (handleRequest req st).2 = st)
      ∧ (∀ (reqs : List Request) (st : ServerState), runRequests reqs st = st)
      ∧ (∀ (reqs : List Request) (st : ServerState) (req : Request),
          (handleRequest req (runRequests reqs st)).1 = (handleRequest req st).1)
      ∧ getSampleEntries.map DiaryEntry.id = [1, 2, 3] := by
  have h1 : ∀ (req : Request) (st : ServerState), (handleRequest req st).2 = st := by
    intro req st
    unfold handleRequest
    split <;> rfl
  have h2 : ∀ (reqs : List Request) (st : ServerState), runRequests reqs st = st := by
    intro reqs
    induction reqs with
    | nil => intro st; rfl
    | cons r rs ih =>
        intro st
        show runRequests rs (handleRequest r st).2 = st
        rw [h1 r st]
        exact ih st
  refine ⟨h1, h2, ?_, by decide⟩
  intro reqs st req
  rw [h2 reqs st]

end MovieJournal
